import Mathlib

/-!
Verification of the PythontoWordResume pipeline.

This file embeds the repository's document-rendering pipeline
(yaml_docx.py, cli.py, prompt_generator.py, script.py) as executable Lean
definitions and proves the frozen claims about it.

Modelling conventions:
  * A Word document is a list of paragraphs; a paragraph carries its runs,
    style, spacing and alignment.  python-docx's add_paragraph creates a
    run only when the text is nonempty, so accessing runs[0] of a
    paragraph created from the empty string raises IndexError; this is
    modelled with Except-valued renderers whose error string names the
    Python exception.
  * YAML values are the values yaml.safe_load can produce: strings,
    integers, booleans, null, sequences and string-keyed mappings.
  * The network call to the hosted model is an opaque outcome, and
    yaml.safe_load is an opaque parse function supplied as a parameter;
    both are external collaborators the spec leaves out of scope.
-/

/-- Boolean success test for `Except` values. -/
def isOkE : Except ε α → Bool
  | .ok _ => true
  | .error _ => false

/-- Sequential effectful map over a list, stopping at the first error.
This is the shape of every Python for-loop in the repository: process the
entries in order and let the first exception abort the whole loop. -/
def mapE (f : α → Except ε β) : List α → Except ε (List β)
  | [] => .ok []
  | x :: xs =>
    match f x with
    | .error e => .error e
    | .ok y =>
      match mapE f xs with
      | .error e => .error e
      | .ok ys => .ok (y :: ys)

/-- Values producible by yaml.safe_load: scalars, sequences and
string-keyed mappings.  `null` is Python's None. -/
inductive Yaml where
  | str (s : String)
  | int (n : Int)
  | bool (b : Bool)
  | null
  | list (xs : List Yaml)
  | map (kvs : List (String × Yaml))

/-- Key lookup in a parsed mapping. -/
def lookupKey (kvs : List (String × Yaml)) (k : String) : Option Yaml :=
  match kvs with
  | [] => none
  | (k', v) :: rest => if k' = k then some v else lookupKey rest k

/-! ## Data model (yaml_docx.py, pydantic models) -/

/-- Embeds `skillsclass`. -/
structure skillsclass where
  category : String
  skill : String
deriving DecidableEq, Repr

/-- Embeds `workclass`. -/
structure workclass where
  Title : String
  Company : String
  Date : String
  Points : List String
deriving DecidableEq, Repr

/-- Embeds `projectclass`. -/
structure projectclass where
  Name : String
  Points : List String
deriving DecidableEq, Repr

/-- Embeds `certificateclass`. -/
structure certificateclass where
  Name : String
  Issuer : String
deriving DecidableEq, Repr

/-- Embeds `credentialclass`. -/
structure credentialclass where
  Name : String
  Points : List String
deriving DecidableEq, Repr

/-- Embeds `educationclass`. -/
structure educationclass where
  Name : String
  Credential : List credentialclass
deriving DecidableEq, Repr

/-- Embeds `Resume`, the top-level pydantic model. -/
structure Resume where
  summary : String
  skills : List skillsclass
  education : List educationclass
  certificates : List certificateclass
  work : List workclass
  projects : List projectclass
deriving DecidableEq, Repr

/-- Embeds `ContactInfo` (field values; validation is separate). -/
structure ContactInfo where
  name : String
  email : String
  github : String
  linkedin : String
deriving DecidableEq, Repr

/-! ## Document model (python-docx as used by the repository) -/

/-- Paragraph styles the repository uses: the default style and
the built-in List Bullet style. -/
inductive ParaStyle where
  | normal
  | listBullet
deriving DecidableEq, Repr

/-- Paragraph alignments the repository sets (only CENTER is ever used). -/
inductive ParaAlignment where
  | center
deriving DecidableEq, Repr

/-- A text run.  Font attributes are `none` until a TextStyle is applied,
mirroring python-docx run properties that inherit until set. -/
structure RunData where
  text : String
  bold : Option Bool := none
  fontName : Option String := none
  fontSize : Option Nat := none
deriving DecidableEq, Repr

/-- A paragraph: its runs, style, spacing (in points) and alignment. -/
structure Para where
  runs : List RunData := []
  style : ParaStyle := .normal
  spaceBefore : Option Nat := none
  spaceAfter : Option Nat := none
  alignment : Option ParaAlignment := none
deriving DecidableEq, Repr

/-- A document body is the ordered list of paragraphs. -/
abbrev Doc := List Para

/-- python-docx `add_paragraph`: a run is created only when the text is
nonempty (`if text: paragraph.add_run(text)` in BlockItemContainer). -/
def mkParagraph (text : String) (style : ParaStyle) : Para :=
  { runs := if text = "" then [] else [{ text := text }], style := style }

/-- Embeds `TextStyle` with its defaults (not bold, Times New Roman, 12pt). -/
structure TextStyle where
  bold : Bool := false
  font_name : String := "Times New Roman"
  font_size : Nat := 12
deriving DecidableEq, Repr

/-- Embeds `TextStyle.apply`: sets bold, font name and size on a run. -/
def TextStyle.apply (st : TextStyle) (r : RunData) : RunData :=
  { r with bold := some st.bold, fontName := some st.font_name,
           fontSize := some st.font_size }

/-- Embeds the `formattingstyles` dictionary. -/
def formattingstyles (key : String) : TextStyle :=
  if key = "Name" then { font_size := 18 }
  else if key = "Links" then { font_size := 14 }
  else if key = "Point" then {}
  else if key = "PointHeading" then { bold := true }
  else if key = "SectionHeading" then { bold := true, font_size := 13 }
  else {}

/-- `paragraph.runs[0]` followed by a style application: IndexError when
the paragraph has no runs (paragraph created from empty text). -/
def styleFirstRun (st : TextStyle) (p : Para) : Except String Para :=
  match p.runs with
  | [] => .error "IndexError"
  | r :: rest => .ok { p with runs := st.apply r :: rest }

/-- Embeds `spacing`: sets space_after then space_before, in points. -/
def spacing (p : Para) (space_before space_after : Nat) : Para :=
  { p with spaceAfter := some space_after, spaceBefore := some space_before }

/-! ## Section renderers (yaml_docx.py) -/

/-- Embeds `ProfessionalSummaryRenderer.render`: one paragraph holding the
summary text plus a newline, Point style, zero spacing before and after. -/
def professionalSummaryRender (doc : Doc) (data : Resume) : Except String Doc := do
  let t ← styleFirstRun (formattingstyles "Point") (mkParagraph (data.summary ++ "\n") .normal)
  return doc ++ [spacing t 0 0]

/-- One skills category paragraph: bold category run, plain skill run,
3pt space after (body of the loop in `SkillRenderer.render`). -/
def skillEntryPara (sc : skillsclass) : Except String Para := do
  let p ← styleFirstRun (formattingstyles "PointHeading") (mkParagraph (sc.category ++ ": ") .normal)
  let p := { p with runs := p.runs ++ [(formattingstyles "Point").apply { text := sc.skill }] }
  return { p with spaceAfter := some 3 }

/-- Embeds `SkillRenderer.render`: category paragraphs then a blank one. -/
def skillRender (doc : Doc) (data : Resume) : Except String Doc := do
  let ps ← mapE skillEntryPara data.skills
  return doc ++ ps ++ [mkParagraph "" .normal]

/-- One bulleted work point: Point style, 3pt space after. -/
def workPointPara (pt : String) : Except String Para := do
  let q ← styleFirstRun (formattingstyles "Point") (mkParagraph pt .listBullet)
  return { q with spaceAfter := some 3 }

/-- One work entry: unstyled header paragraph then its bulleted points
(body of the loop in `WorkExperienceRenderer.render`). -/
def workEntryParas (w : workclass) : Except String (List Para) := do
  let pts ← mapE workPointPara w.Points
  return mkParagraph (w.Title ++ ", " ++ w.Company ++ " " ++ w.Date) .normal :: pts

/-- Embeds `WorkExperienceRenderer.render`: entries then a blank paragraph. -/
def workExperienceRender (doc : Doc) (data : Resume) : Except String Doc := do
  let parts ← mapE workEntryParas data.work
  return doc ++ parts.flatten ++ [mkParagraph "" .normal]

/-- One bulleted credential point: Point style, 0pt space after. -/
def credPointPara (pt : String) : Except String Para := do
  let q ← styleFirstRun (formattingstyles "Point") (mkParagraph pt .listBullet)
  return { q with spaceAfter := some 0 }

/-- One credential: bold name paragraph with 0pt space after, then its
bulleted points (inner loop of `EducationRenderer.render`). -/
def credentialParas (c : credentialclass) : Except String (List Para) := do
  let n ← styleFirstRun (formattingstyles "PointHeading") (mkParagraph c.Name .normal)
  let n := { n with spaceAfter := some 0 }
  let pts ← mapE credPointPara c.Points
  return n :: pts

/-- One institution: bold name paragraph then its credentials. -/
def educationEntryParas (u : educationclass) : Except String (List Para) := do
  let n ← styleFirstRun (formattingstyles "PointHeading") (mkParagraph u.Name .normal)
  let creds ← mapE credentialParas u.Credential
  return n :: creds.flatten

/-- One certificate bullet: text Name colon Issuer, 2pt space after. -/
def certificatePara (c : certificateclass) : Except String Para := do
  let p ← styleFirstRun (formattingstyles "Point") (mkParagraph (c.Name ++ ": " ++ c.Issuer) .listBullet)
  return { p with spaceAfter := some 2 }

/-- Embeds `EducationRenderer.render`: institutions, a blank paragraph,
then the certificate bullets. -/
def educationRender (doc : Doc) (data : Resume) : Except String Doc := do
  let unis ← mapE educationEntryParas data.education
  let certs ← mapE certificatePara data.certificates
  return doc ++ unis.flatten ++ [mkParagraph "" .normal] ++ certs

/-- One bulleted project point: Point style, 15pt before, 3pt after. -/
def projectPointPara (pt : String) : Except String Para := do
  let q ← styleFirstRun (formattingstyles "Point") (mkParagraph pt .listBullet)
  return spacing q 15 3

/-- One project: bold name paragraph whose space-before is 0pt exactly
when the name is the literal string "Project 1 Name" and 9pt otherwise,
then the bulleted points (body of the loop in `ProjectRenderer.render`). -/
def projectEntryParas (p : projectclass) : Except String (List Para) := do
  let n ← styleFirstRun (formattingstyles "PointHeading") (mkParagraph p.Name .normal)
  let n := { n with spaceBefore := some (if p.Name = "Project 1 Name" then 0 else 9) }
  let pts ← mapE projectPointPara p.Points
  return n :: pts

/-- Embeds `ProjectRenderer.render` (no trailing blank paragraph). -/
def projectRender (doc : Doc) (data : Resume) : Except String Doc := do
  let parts ← mapE projectEntryParas data.projects
  return doc ++ parts.flatten

/-! ## Renderer dispatch (renderermap and the cli loop) -/

/-- Closed set of renderers, one per entry of the `renderermap` dict. -/
inductive RendererTag where
  | professionalSummary
  | skills
  | education
  | experience
  | projects
deriving DecidableEq, Repr

/-- Embeds `renderermap`: the fixed five-entry dictionary, in its
insertion order. -/
def renderermap : List (String × RendererTag) :=
  [("Professional Summary", .professionalSummary),
   ("Skills", .skills),
   ("Education", .education),
   ("Experience", .experience),
   ("Projects", .projects)]

/-- Dispatch a tag to its renderer. -/
def runRenderer : RendererTag → Doc → Resume → Except String Doc
  | .professionalSummary => professionalSummaryRender
  | .skills => skillRender
  | .education => educationRender
  | .experience => workExperienceRender
  | .projects => projectRender

/-- Python dict subscription on `renderermap`: KeyError on a miss. -/
def lookupRendererE (name : String) : Except String RendererTag :=
  match renderermap.lookup name with
  | some t => .ok t
  | none => .error ("KeyError: " ++ name)

/-- Embeds the section loop of `cli.main` (lines 138-141): for each
directive add a heading paragraph, style it as SectionHeading, look the
renderer up by the directive's type string and run it. -/
def renderSectionLoop (m : Resume) : Doc → List String → Except String Doc
  | doc, [] => .ok doc
  | doc, d :: rest => do
    let h ← styleFirstRun (formattingstyles "SectionHeading") (mkParagraph d .normal)
    let tag ← lookupRendererE d
    let doc2 ← runRenderer tag (doc ++ [h]) m
    renderSectionLoop m doc2 rest

/-- The content the section loop appends, expressed per directive: for
each directive, a SectionHeading-styled heading paragraph bearing the
directive's name, immediately followed by that section's own rendered
content, concatenated in directive order. -/
def renderedSections (m : Resume) : List String → Except String Doc
  | [] => .ok []
  | d :: rest => do
    let h ← styleFirstRun (formattingstyles "SectionHeading") (mkParagraph d .normal)
    let tag ← lookupRendererE d
    let body ← runRenderer tag [] m
    let restOut ← renderedSections m rest
    return (h :: body) ++ restOut

/-! ## Document header (cli.main lines 118-136) -/

/-- Page margins of the document's first section, in thousandths of an
inch (Inches(0.5) is 500, Inches(0.437) is 437, Inches(0.287) is 287). -/
structure SectionMargins where
  left : Nat
  right : Nat
  top : Nat
  bottom : Nat
deriving DecidableEq, Repr

/-- A document file: its first section's margins and its body. -/
structure DocumentFile where
  margins : SectionMargins
  body : Doc
deriving DecidableEq, Repr

/-- Embeds `paragraph_formatting` from yaml_docx.py.  The source accepts
a `style` argument but applies `TextStyle()` — the default 12pt style —
to the run, so the argument never influences the output; the paragraph is
then center-aligned (the default alignment argument). -/
def paragraph_formatting (paragraph_text : String) (style : TextStyle) : Except String Para := do
  let para ← styleFirstRun {} (mkParagraph paragraph_text .normal)
  return { para with alignment := some .center }

/-- Embeds the header phase of `cli.main` (lines 127-136): set the four
page margins, add the centered name line with 0pt space after, then the
centered contact line built as email, " | LinkedIn | GitHub". -/
def buildHeader (contactName email : String) : Except String DocumentFile := do
  let margins : SectionMargins := { left := 500, right := 500, top := 437, bottom := 287 }
  let nametext ← paragraph_formatting contactName (formattingstyles "Name")
  let nametext := { nametext with spaceAfter := some 0 }
  let links ← paragraph_formatting (email ++ " | LinkedIn | GitHub") (formattingstyles "Links")
  return { margins := margins, body := [nametext, links] }

/-- Embeds the document phase of `cli.main`: header first, then the
section loop over the resume_sections directives. -/
def renderResumeDoc (contactName email : String) (m : Resume) (dirs : List String) :
    Except String DocumentFile := do
  let hdr ← buildHeader contactName email
  let body ← renderSectionLoop m hdr.body dirs
  return { hdr with body := body }

/-! ## The legacy renderer in script.py -/

/-- Embeds `WorkExperienceRenderer.render` from script.py (lines
113-121): identical paragraph construction to the packaged renderer, but
the loop iterates the module-level global `resume` — here an explicit
`globalResume` argument — instead of the `data` parameter. -/
def scriptWorkExperienceRender (globalResume : Resume) (doc : Doc) (data : Resume) :
    Except String Doc := do
  let parts ← mapE workEntryParas globalResume.work
  return doc ++ parts.flatten ++ [mkParagraph "" .normal]

/-! ## Schema validation (pydantic model_validate over parsed YAML) -/

/-- Required string field: pydantic lax mode accepts exactly a string
for a `str` field (no coercion from int, bool or null); a missing key is
a "Field required" error. -/
def reqStr (kvs : List (String × Yaml)) (k : String) : Except String String :=
  match lookupKey kvs k with
  | some (.str s) => .ok s
  | some _ => .error (k ++ ": input should be a valid string")
  | none => .error (k ++ ": field required")

/-- Required list field whose items are validated by `f` in order. -/
def reqListOf (kvs : List (String × Yaml)) (k : String)
    (f : Yaml → Except String α) : Except String (List α) :=
  match lookupKey kvs k with
  | some (.list xs) => mapE f xs
  | some _ => .error (k ++ ": input should be a valid list")
  | none => .error (k ++ ": field required")

/-- Item validator for `List[str]` entries. -/
def strItem (y : Yaml) : Except String String :=
  match y with
  | .str s => .ok s
  | _ => .error "input should be a valid string"

/-- Validation of one `skillsclass` entry from its mapping. -/
def skillsclass.model_validate (y : Yaml) : Except String skillsclass :=
  match y with
  | .map kvs => do
    let c ← reqStr kvs "category"
    let s ← reqStr kvs "skill"
    return { category := c, skill := s }
  | _ => .error "skills entry: input should be a valid dictionary"

/-- Validation of one `workclass` entry from its mapping. -/
def workclass.model_validate (y : Yaml) : Except String workclass :=
  match y with
  | .map kvs => do
    let t ← reqStr kvs "Title"
    let c ← reqStr kvs "Company"
    let d ← reqStr kvs "Date"
    let ps ← reqListOf kvs "Points" strItem
    return { Title := t, Company := c, Date := d, Points := ps }
  | _ => .error "work entry: input should be a valid dictionary"

/-- Validation of one `projectclass` entry from its mapping. -/
def projectclass.model_validate (y : Yaml) : Except String projectclass :=
  match y with
  | .map kvs => do
    let n ← reqStr kvs "Name"
    let ps ← reqListOf kvs "Points" strItem
    return { Name := n, Points := ps }
  | _ => .error "project entry: input should be a valid dictionary"

/-- Validation of one `certificateclass` entry from its mapping. -/
def certificateclass.model_validate (y : Yaml) : Except String certificateclass :=
  match y with
  | .map kvs => do
    let n ← reqStr kvs "Name"
    let i ← reqStr kvs "Issuer"
    return { Name := n, Issuer := i }
  | _ => .error "certificate entry: input should be a valid dictionary"

/-- Validation of one `credentialclass` entry from its mapping. -/
def credentialclass.model_validate (y : Yaml) : Except String credentialclass :=
  match y with
  | .map kvs => do
    let n ← reqStr kvs "Name"
    let ps ← reqListOf kvs "Points" strItem
    return { Name := n, Points := ps }
  | _ => .error "credential entry: input should be a valid dictionary"

/-- Validation of one `educationclass` entry from its mapping. -/
def educationclass.model_validate (y : Yaml) : Except String educationclass :=
  match y with
  | .map kvs => do
    let n ← reqStr kvs "Name"
    let cs ← reqListOf kvs "Credential" credentialclass.model_validate
    return { Name := n, Credential := cs }
  | _ => .error "education entry: input should be a valid dictionary"

/-- Embeds `Resume.model_validate`: all six fields must be present and
well-typed, validated in field-declaration order, failing as a whole with
the first offending field's error and producing no partial resume. -/
def Resume.model_validate (y : Yaml) : Except String Resume :=
  match y with
  | .map kvs => do
    let summary ← reqStr kvs "summary"
    let skills ← reqListOf kvs "skills" skillsclass.model_validate
    let education ← reqListOf kvs "education" educationclass.model_validate
    let certificates ← reqListOf kvs "certificates" certificateclass.model_validate
    let work ← reqListOf kvs "work" workclass.model_validate
    let projects ← reqListOf kvs "projects" projectclass.model_validate
    return { summary := summary, skills := skills, education := education,
             certificates := certificates, work := work, projects := projects }
  | _ => .error "resume: input should be a valid dictionary"

/-! ### Spec-side shape predicates

These restate, in the spec's words, what a well-shaped structure is:
all six fields present and type-correct, and every entry of the five
list fields carrying its required sub-fields.  The claim compares them
with the source-embedded validator. -/

/-- The key is present and bound to a string. -/
def strFieldOK (kvs : List (String × Yaml)) (k : String) : Bool :=
  match lookupKey kvs k with
  | some (.str _) => true
  | _ => false

/-- The key is present and bound to a list all of whose items pass. -/
def listFieldOK (kvs : List (String × Yaml)) (k : String) (itemOK : Yaml → Bool) : Bool :=
  match lookupKey kvs k with
  | some (.list xs) => xs.all itemOK
  | _ => false

/-- A YAML value that is a plain string. -/
def strItemOK (y : Yaml) : Bool :=
  match y with
  | .str _ => true
  | _ => false

/-- Shape of a skills entry: category and skill strings. -/
def skillEntryOK (y : Yaml) : Bool :=
  match y with
  | .map kvs => strFieldOK kvs "category" && strFieldOK kvs "skill"
  | _ => false

/-- Shape of a work entry: Title, Company, Date strings and Points list. -/
def workEntryOK (y : Yaml) : Bool :=
  match y with
  | .map kvs => strFieldOK kvs "Title" && strFieldOK kvs "Company" &&
      strFieldOK kvs "Date" && listFieldOK kvs "Points" strItemOK
  | _ => false

/-- Shape of a project entry: Name string and Points list of strings. -/
def projectEntryOK (y : Yaml) : Bool :=
  match y with
  | .map kvs => strFieldOK kvs "Name" && listFieldOK kvs "Points" strItemOK
  | _ => false

/-- Shape of a certificate entry: Name and Issuer strings. -/
def certificateEntryOK (y : Yaml) : Bool :=
  match y with
  | .map kvs => strFieldOK kvs "Name" && strFieldOK kvs "Issuer"
  | _ => false

/-- Shape of a credential entry: Name string and Points list of strings. -/
def credentialEntryOK (y : Yaml) : Bool :=
  match y with
  | .map kvs => strFieldOK kvs "Name" && listFieldOK kvs "Points" strItemOK
  | _ => false

/-- Shape of an education entry: Name string and Credential list. -/
def educationEntryOK (y : Yaml) : Bool :=
  match y with
  | .map kvs => strFieldOK kvs "Name" && listFieldOK kvs "Credential" credentialEntryOK
  | _ => false

/-- Shape of a whole resume mapping: the six fields of the model, each
present and type-correct, with every list entry well-shaped. -/
def resumeShapeOK (y : Yaml) : Bool :=
  match y with
  | .map kvs => strFieldOK kvs "summary" &&
      listFieldOK kvs "skills" skillEntryOK &&
      listFieldOK kvs "education" educationEntryOK &&
      listFieldOK kvs "certificates" certificateEntryOK &&
      listFieldOK kvs "work" workEntryOK &&
      listFieldOK kvs "projects" projectEntryOK
  | _ => false

/-! ## ContactInfo validation (pydantic EmailStr / HttpUrl) -/

/-- Modelled from the spec: pydantic's `EmailStr` format check lives in
the email-validator library, outside this repository; the spec asks for
RFC-shaped email syntax that rejects "not-an-email" and accepts
"a@b.com".  A value is email-shaped when it splits on a single "@" into
a nonempty local part and a nonempty, dot-containing domain, with no
spaces and no leading or trailing dot in the domain. -/
def isValidEmail (s : String) : Bool :=
  let cs := s.toList
  let localPart := cs.takeWhile (fun c => c ≠ '@')
  let domain := (cs.dropWhile (fun c => c ≠ '@')).drop 1
  (cs.count '@' == 1) &&
  !localPart.isEmpty && !domain.isEmpty &&
  !localPart.contains ' ' && !domain.contains ' ' &&
  domain.contains '.' &&
  !(domain.head? == some '.') && !(domain.getLast? == some '.')

/-- Modelled from the spec: pydantic's `HttpUrl` format check lives in
the pydantic library, outside this repository; the spec asks for URL
syntax that rejects "not a url" and accepts "https://example.com".  A
value is URL-shaped when it starts with an http or https scheme followed
by a nonempty, space-free remainder. -/
def isValidHttpUrl (s : String) : Bool :=
  let cs := s.toList
  if cs.take 8 = "https://".toList then
    !(cs.drop 8).isEmpty && !(cs.drop 8).contains ' '
  else if cs.take 7 = "http://".toList then
    !(cs.drop 7).isEmpty && !(cs.drop 7).contains ' '
  else false

/-- Embeds the `ContactInfo(...)` constructor call validation: `name` is
a plain `str` with no format check, `email` must be email-shaped, and
`github`/`linkedin` must be URL-shaped; these are the only fields with
format-level checks. -/
def ContactInfo.validate (name email github linkedin : String) :
    Except String ContactInfo :=
  if !isValidEmail email then
    .error "email: value is not a valid email address"
  else if !isValidHttpUrl github then
    .error "github: input should be a valid URL"
  else if !isValidHttpUrl linkedin then
    .error "linkedin: input should be a valid URL"
  else
    .ok { name := name, email := email, github := github, linkedin := linkedin }

/-! ## Prompt-to-structure generator (prompt_generator.py variants) -/

/-- Outcome of the hosted-model call, an external collaborator: the reply
text on success, or one of the two anthropic client errors the code
catches. -/
inductive ApiOutcome where
  | ok (text : String)
  | statusError (status_code : Nat) (message : String)
  | connectionError

/-- Python exceptions the generator can raise.  A `valueError` records
the payload the ValueError was constructed with: `some e` when built as
ValueError(e) from the caught YAMLError, `none` when built from a value
that is Python's None. -/
inductive PyError where
  | valueError (payload : Option String)
  | unboundLocalError
deriving DecidableEq, Repr

/-- Embeds the fixed-offset slice `message.content[0].text[7:-4]`:
Python's s[7:-4] keeps the characters with index from 7 up to
length minus 4 (exclusive), i.e. take (length - 4) then drop 7. -/
def pySliceText (s : String) : String :=
  String.mk ((s.toList.take (s.toList.length - 4)).drop 7)

/-- The slice restated the way the claim reads it: remove the first 7
characters, then remove the last 4 of what remains. -/
def dropFirst7Last4 (s : String) : String :=
  String.mk ((s.toList.drop 7).take ((s.toList.drop 7).length - 4))

/-- Embeds `LLMResumeGenerator.generate_yaml_from_prompt` from
resume_builder/prompt_generator.py (lines 89-104), parameterized by the
API outcome and by yaml.safe_load (`parse`).  On an API status or
connection error the except arm only prints, so the method falls off the
end and returns None (`Yaml.null`); on a YAMLError it raises
ValueError(e), carrying the parse failure. -/
def generate_yaml_from_prompt (api : ApiOutcome) (parse : String → Except String Yaml) :
    Except PyError Yaml :=
  match api with
  | .ok text =>
    match parse (pySliceText text) with
    | .ok y => .ok y
    | .error e => .error (.valueError (some e))
  | .statusError _ _ => .ok .null
  | .connectionError => .ok .null

/-- Embeds `LLMResumeGenerator.generate_yaml_from_prompt` from the legacy
top-level src/prompt_generator.py (lines 52-71).  The API call sits in
its own try block whose except arms only print, so after an API error the
local `message` is unbound and the slice raises UnboundLocalError; a
YAMLError is re-raised as ValueError(print(e)), whose payload is None
because print returns None — the parse failure is printed, not carried. -/
def legacyGenerateYaml (api : ApiOutcome) (parse : String → Except String Yaml) :
    Except PyError Yaml :=
  match api with
  | .ok text =>
    match parse (pySliceText text) with
    | .ok y => .ok y
    | .error _ => .error (.valueError none)
  | .statusError _ _ => .error .unboundLocalError
  | .connectionError => .error .unboundLocalError

/-- A concrete stand-in for yaml.safe_load failing on every input, used
to exhibit the generators' parse-error behavior at a concrete point. -/
def parseFailStub : String → Except String Yaml :=
  fun _ => .error "mapping values are not allowed here"

/-! ## Helper lemmas -/

theorem isOkE_mapE (f : α → Except ε β) (xs : List α) :
    isOkE (mapE f xs) = xs.all fun x => isOkE (f x) := by
  induction xs with
  | nil => rfl
  | cons x xs ih =>
    simp only [mapE, List.all_cons, ← ih]
    cases h : f x with
    | error e => simp [isOkE]
    | ok y =>
      cases h2 : mapE f xs with
      | error e => simp [isOkE, h2]
      | ok ys => simp [isOkE, h2]

theorem mapE_ok_forall2 (f : α → Except ε β) (xs : List α) (ys : List β)
    (h : mapE f xs = .ok ys) : List.Forall₂ (fun x y => f x = .ok y) xs ys := by
  induction xs generalizing ys with
  | nil =>
    simp only [mapE] at h
    cases h
    exact .nil
  | cons x xs ih =>
    simp only [mapE] at h
    cases hx : f x with
    | error e => rw [hx] at h; cases h
    | ok y =>
      rw [hx] at h
      cases hr : mapE f xs with
      | error e => rw [hr] at h; cases h
      | ok ys2 =>
        rw [hr] at h
        cases h
        exact .cons hx (ih _ hr)

theorem professionalSummaryRender_append (doc : Doc) (m : Resume) :
    professionalSummaryRender doc m =
      Except.map (fun d => doc ++ d) (professionalSummaryRender [] m) := by
  simp only [professionalSummaryRender]
  cases h : styleFirstRun (formattingstyles "Point") (mkParagraph (m.summary ++ "\n") .normal) <;>
    simp [h, Except.map, Bind.bind, Except.bind, pure, Except.pure]

theorem skillRender_append (doc : Doc) (m : Resume) :
    skillRender doc m = Except.map (fun d => doc ++ d) (skillRender [] m) := by
  simp only [skillRender]
  cases h : mapE skillEntryPara m.skills <;>
    simp [h, Except.map, Bind.bind, Except.bind, pure, Except.pure]

theorem workExperienceRender_append (doc : Doc) (m : Resume) :
    workExperienceRender doc m =
      Except.map (fun d => doc ++ d) (workExperienceRender [] m) := by
  simp only [workExperienceRender]
  cases h : mapE workEntryParas m.work <;>
    simp [h, Except.map, Bind.bind, Except.bind, pure, Except.pure]

theorem educationRender_append (doc : Doc) (m : Resume) :
    educationRender doc m =
      Except.map (fun d => doc ++ d) (educationRender [] m) := by
  simp only [educationRender]
  cases h : mapE educationEntryParas m.education <;>
    cases h2 : mapE certificatePara m.certificates <;>
      simp [h, h2, Except.map, Bind.bind, Except.bind, pure, Except.pure]

theorem projectRender_append (doc : Doc) (m : Resume) :
    projectRender doc m = Except.map (fun d => doc ++ d) (projectRender [] m) := by
  simp only [projectRender]
  cases h : mapE projectEntryParas m.projects <;>
    simp [h, Except.map, Bind.bind, Except.bind, pure, Except.pure]

theorem runRenderer_append (tag : RendererTag) (doc : Doc) (m : Resume) :
    runRenderer tag doc m = Except.map (fun d => doc ++ d) (runRenderer tag [] m) := by
  cases tag
  · exact professionalSummaryRender_append doc m
  · exact skillRender_append doc m
  · exact educationRender_append doc m
  · exact workExperienceRender_append doc m
  · exact projectRender_append doc m

theorem scriptWorkExperienceRender_append (g : Resume) (doc : Doc) (m : Resume) :
    scriptWorkExperienceRender g doc m =
      Except.map (fun d => doc ++ d) (scriptWorkExperienceRender g [] m) := by
  simp only [scriptWorkExperienceRender]
  cases h : mapE workEntryParas g.work <;>
    simp [h, Except.map, Bind.bind, Except.bind, pure, Except.pure]

theorem renderSectionLoop_eq_renderedSections (m : Resume) (doc : Doc) (dirs : List String) :
    renderSectionLoop m doc dirs =
      Except.map (fun d => doc ++ d) (renderedSections m dirs) := by
  induction dirs generalizing doc with
  | nil => simp [renderSectionLoop, renderedSections, Except.map]
  | cons d rest ih =>
    simp only [renderSectionLoop, renderedSections]
    cases hh : styleFirstRun (formattingstyles "SectionHeading") (mkParagraph d .normal) with
    | error e => simp [hh, Except.map, Bind.bind, Except.bind]
    | ok h =>
      cases hl : lookupRendererE d with
      | error e => simp [hh, hl, Except.map, Bind.bind, Except.bind]
      | ok tag =>
        simp only [Bind.bind, Except.bind]
        rw [runRenderer_append tag (doc ++ [h]) m]
        cases hr : runRenderer tag [] m with
        | error e => simp [hh, hl, hr, Except.map, Bind.bind, Except.bind]
        | ok body =>
          cases hrest : renderedSections m rest with
          | error e =>
            simp [hh, hl, hr, hrest, Except.map, Bind.bind, Except.bind, ih]
          | ok restOut =>
            simp [hh, hl, hr, hrest, Except.map, Bind.bind, Except.bind, ih, pure, Except.pure]

/-! ## Concrete fixtures -/

/-- The spec's end-to-end fixture: one summary, one skill category, one
work entry. -/
def sampleResume : Resume :=
  { summary := "Built things.",
    skills := [{ category := "Languages", skill := "Python, Go" }],
    education := [], certificates := [],
    work := [{ Title := "Engineer", Company := "Acme", Date := "2020-2022",
               Points := ["Shipped X"] }],
    projects := [] }

/-- A resume whose six fields are all empty. -/
def blankResume : Resume :=
  { summary := "", skills := [], education := [], certificates := [],
    work := [], projects := [] }

instance [DecidableEq ε] [DecidableEq α] : DecidableEq (Except ε α)
  | .ok a, .ok b =>
    if h : a = b then .isTrue (by rw [h])
    else .isFalse (by intro hc; cases hc; exact h rfl)
  | .ok _, .error _ => .isFalse (by intro hc; cases hc)
  | .error _, .ok _ => .isFalse (by intro hc; cases hc)
  | .error e, .error f =>
    if h : e = f then .isTrue (by rw [h])
    else .isFalse (by intro hc; cases hc; exact h rfl)

/-! ## The claims -/

/-- Claim C1: for every initial document, valid resume model and ordered
sequence of section directives, the cli section loop produces exactly the
initial document followed, in directive order, by one SectionHeading-styled
heading paragraph bearing each directive's section name immediately
followed by that section's own rendered content (`renderedSections`
spells out that per-directive shape); the output depends on the model
only through each section's renderer, never on the model's field order. -/
theorem c1_section_order (m : Resume) (initial : Doc) (dirs : List String) :
    renderSectionLoop m initial dirs =
      Except.map (fun d => initial ++ d) (renderedSections m dirs) :=
  renderSectionLoop_eq_renderedSections m initial dirs

/-- Claim C2: rendering is deterministic — running the section loop twice
from the same initial document with the same model and directive order
yields identical document content. -/
theorem c2_render_deterministic (initial : Doc) (m : Resume) (dirs : List String)
    (out1 out2 : Except String Doc)
    (h1 : renderSectionLoop m initial dirs = out1)
    (h2 : renderSectionLoop m initial dirs = out2) : out1 = out2 := by
  rw [← h1, ← h2]

/-- Witness for C2: two runs of the loop on the spec's fixture agree. -/
theorem c2_render_deterministic_witness :
    renderSectionLoop sampleResume [] ["Professional Summary", "Skills", "Experience"] =
      renderSectionLoop sampleResume [] ["Professional Summary", "Skills", "Experience"] :=
  c2_render_deterministic [] sampleResume ["Professional Summary", "Skills", "Experience"]
    _ _ rfl rfl

/-- Counterexample for C9: the claim says every renderer's output depends
only on the document state and the Resume model passed as arguments, but
`WorkExperienceRenderer.render` in script.py iterates the module-level
global `resume`, so two calls with identical document and `data`
arguments but different globals produce different documents. -/
theorem c9_global_state_counterexample :
    scriptWorkExperienceRender sampleResume [] blankResume ≠
      scriptWorkExperienceRender blankResume [] blankResume := by decide

/-- Claim C9 as amended: the five renderers of yaml_docx.py are additive
and depend only on their document and model arguments (their output is
the input document followed by content computed from the model alone);
the script.py work-experience renderer is additive too, but ignores its
`data` argument entirely and instead depends on the module-level global
resume (within a run that global is the one validated model, so the
rendered run is unaffected).  No renderer mutates the model, which the
embedding reflects by passing it as an immutable value. -/
theorem c9_renderer_frame :
    (∀ (tag : RendererTag) (doc : Doc) (m : Resume),
        runRenderer tag doc m = Except.map (fun d => doc ++ d) (runRenderer tag [] m)) ∧
    (∀ (g : Resume) (doc : Doc) (m1 m2 : Resume),
        scriptWorkExperienceRender g doc m1 = scriptWorkExperienceRender g doc m2) ∧
    (∀ (g : Resume) (doc : Doc) (m : Resume),
        scriptWorkExperienceRender g doc m =
          Except.map (fun d => doc ++ d) (scriptWorkExperienceRender g [] m)) :=
  ⟨runRenderer_append, fun _ _ _ _ => rfl, scriptWorkExperienceRender_append⟩

/-- Counterexample for C4: the claim says every directive whose type
string is not one of the five known names makes renderer lookup fail
fatally with a lookup error, but for the empty string the run dies
earlier: add_paragraph("") creates no run, so styling the heading raises
IndexError before the renderermap subscription is ever evaluated — the
failure is not the lookup failure.  (The directive is still never
silently skipped.) -/
theorem c4_empty_directive_counterexample :
    ("" ∉ ["Professional Summary", "Skills", "Education", "Experience", "Projects"]) ∧
    renderSectionLoop blankResume [] [""] = .error "IndexError" ∧
    renderSectionLoop blankResume [] [""] ≠ .error ("KeyError: " ++ "") := by
  refine ⟨by decide, ?_, by decide⟩
  rfl

/-- Claim C4 as amended: for every directive type string that is not
exactly one of the five known names, `renderermap` lookup misses (exact,
case- and text-sensitive string matching) and, when the string is
nonempty, processing the directive fails fatally with the unhandled
KeyError from the lookup; for the empty string it fails fatally with the
IndexError raised while styling the heading, before the lookup runs.  In
neither case is the directive skipped or a default renderer run. -/
theorem c4_unknown_section_fatal (s : String)
    (h : s ∉ ["Professional Summary", "Skills", "Education", "Experience", "Projects"]) :
    renderermap.lookup s = none ∧
    lookupRendererE s = .error ("KeyError: " ++ s) ∧
    (s ≠ "" → ∀ (m : Resume) (doc : Doc) (rest : List String),
      renderSectionLoop m doc (s :: rest) = .error ("KeyError: " ++ s)) ∧
    (s = "" → ∀ (m : Resume) (doc : Doc) (rest : List String),
      renderSectionLoop m doc (s :: rest) = .error "IndexError") := by
  simp only [List.mem_cons, List.not_mem_nil, or_false, not_or] at h
  obtain ⟨h1, h2, h3, h4, h5⟩ := h
  have e1 : (s == "Professional Summary") = false := beq_eq_false_iff_ne.mpr h1
  have e2 : (s == "Skills") = false := beq_eq_false_iff_ne.mpr h2
  have e3 : (s == "Education") = false := beq_eq_false_iff_ne.mpr h3
  have e4 : (s == "Experience") = false := beq_eq_false_iff_ne.mpr h4
  have e5 : (s == "Projects") = false := beq_eq_false_iff_ne.mpr h5
  have hl : renderermap.lookup s = none := by
    simp [renderermap, List.lookup, e1, e2, e3, e4, e5]
  have hle : lookupRendererE s = .error ("KeyError: " ++ s) := by
    simp [lookupRendererE, hl]
  refine ⟨hl, hle, ?_, ?_⟩
  · intro hs m doc rest
    simp [renderSectionLoop, mkParagraph, styleFirstRun, hs, hle, Bind.bind, Except.bind]
  · intro hs m doc rest
    simp [renderSectionLoop, mkParagraph, styleFirstRun, hs, Bind.bind, Except.bind]

/-- Witness for C4: the amended claim applied to the spec's example
"Hobbies" and to the empty string. -/
theorem c4_unknown_section_fatal_witness :
    (renderermap.lookup "Hobbies" = none ∧
     lookupRendererE "Hobbies" = .error ("KeyError: " ++ "Hobbies") ∧
     ("Hobbies" ≠ "" → ∀ (m : Resume) (doc : Doc) (rest : List String),
       renderSectionLoop m doc ("Hobbies" :: rest) = .error ("KeyError: " ++ "Hobbies")) ∧
     ("Hobbies" = "" → ∀ (m : Resume) (doc : Doc) (rest : List String),
       renderSectionLoop m doc ("Hobbies" :: rest) = .error "IndexError")) ∧
    (renderermap.lookup "" = none ∧
     lookupRendererE "" = .error ("KeyError: " ++ "") ∧
     ("" ≠ "" → ∀ (m : Resume) (doc : Doc) (rest : List String),
       renderSectionLoop m doc ("" :: rest) = .error ("KeyError: " ++ "")) ∧
     ("" = "" → ∀ (m : Resume) (doc : Doc) (rest : List String),
       renderSectionLoop m doc ("" :: rest) = .error "IndexError")) :=
  ⟨c4_unknown_section_fatal "Hobbies" (by decide),
   c4_unknown_section_fatal "" (by decide)⟩

/-- A successfully rendered project point is a bulleted Point-style
paragraph carrying the point's text, with 15pt space before and 3pt
space after. -/
theorem projectPointPara_ok (pt : String) (q : Para) (h : projectPointPara pt = .ok q) :
    q.style = .listBullet ∧ q.spaceBefore = some 15 ∧ q.spaceAfter = some 3 ∧
    q.runs.map RunData.text = [pt] ∧
    ∀ r ∈ q.runs, r.bold = some false ∧ r.fontSize = some 12 := by
  by_cases hpt : pt = ""
  · simp [projectPointPara, mkParagraph, styleFirstRun, hpt, Bind.bind, Except.bind] at h
  · simp only [projectPointPara, mkParagraph, styleFirstRun, hpt, if_neg hpt,
      Bind.bind, Except.bind, pure, Except.pure] at h
    cases h
    simp [spacing, TextStyle.apply, formattingstyles]

/-- Claim C5: whenever the Projects renderer renders an entry, the
project-name paragraph gets space-before 0pt exactly when the name is
the literal "Project 1 Name" and 9pt for every other name, and each
point becomes a bulleted Point-style paragraph with 15pt space before
and 3pt space after. -/
theorem c5_project_spacing (p : projectclass)
    (h : isOkE (projectEntryParas p) = true) :
    ∃ namePara pointParas,
      projectEntryParas p = .ok (namePara :: pointParas) ∧
      namePara.runs.map RunData.text = [p.Name] ∧
      namePara.spaceBefore = some (if p.Name = "Project 1 Name" then 0 else 9) ∧
      (∀ r ∈ namePara.runs, r.bold = some true ∧ r.fontSize = some 12) ∧
      List.Forall₂ (fun (pt : String) (q : Para) =>
        q.style = .listBullet ∧ q.spaceBefore = some 15 ∧ q.spaceAfter = some 3 ∧
        q.runs.map RunData.text = [pt] ∧
        ∀ r ∈ q.runs, r.bold = some false ∧ r.fontSize = some 12) p.Points pointParas := by
  by_cases hn : p.Name = ""
  · simp [projectEntryParas, mkParagraph, styleFirstRun, hn, Bind.bind, Except.bind, isOkE] at h
  · cases hm : mapE projectPointPara p.Points with
    | error e =>
      simp [projectEntryParas, mkParagraph, styleFirstRun, hn, hm, Bind.bind, Except.bind,
        isOkE] at h
    | ok pts =>
      refine ⟨{ runs := [(formattingstyles "PointHeading").apply { text := p.Name }],
                style := .normal,
                spaceBefore := some (if p.Name = "Project 1 Name" then 0 else 9) },
              pts, ?_, ?_, ?_, ?_, ?_⟩
      · simp only [projectEntryParas, mkParagraph, styleFirstRun, if_neg hn,
          Bind.bind, Except.bind, hm, pure, Except.pure]
      · simp [TextStyle.apply]
      · simp
      · simp [TextStyle.apply, formattingstyles]
      · exact (mapE_ok_forall2 _ _ _ hm).imp (fun pt q hq => projectPointPara_ok pt q hq)

/-- Witness for C5: both branches of the special-case rule, at a project
named "Side Project" (9pt space before) and at the literal placeholder
"Project 1 Name" (0pt space before). -/
theorem c5_project_spacing_witness :
    (∃ namePara pointParas,
      projectEntryParas { Name := "Side Project", Points := ["Did a thing"] } =
        .ok (namePara :: pointParas) ∧
      namePara.runs.map RunData.text = ["Side Project"] ∧
      namePara.spaceBefore = some (if "Side Project" = "Project 1 Name" then 0 else 9) ∧
      (∀ r ∈ namePara.runs, r.bold = some true ∧ r.fontSize = some 12) ∧
      List.Forall₂ (fun (pt : String) (q : Para) =>
        q.style = .listBullet ∧ q.spaceBefore = some 15 ∧ q.spaceAfter = some 3 ∧
        q.runs.map RunData.text = [pt] ∧
        ∀ r ∈ q.runs, r.bold = some false ∧ r.fontSize = some 12)
        ["Did a thing"] pointParas) ∧
    (∃ namePara pointParas,
      projectEntryParas { Name := "Project 1 Name", Points := ["x"] } =
        .ok (namePara :: pointParas) ∧
      namePara.runs.map RunData.text = ["Project 1 Name"] ∧
      namePara.spaceBefore = some (if "Project 1 Name" = "Project 1 Name" then 0 else 9) ∧
      (∀ r ∈ namePara.runs, r.bold = some true ∧ r.fontSize = some 12) ∧
      List.Forall₂ (fun (pt : String) (q : Para) =>
        q.style = .listBullet ∧ q.spaceBefore = some 15 ∧ q.spaceAfter = some 3 ∧
        q.runs.map RunData.text = [pt] ∧
        ∀ r ∈ q.runs, r.bold = some false ∧ r.fontSize = some 12)
        ["x"] pointParas) :=
  ⟨c5_project_spacing { Name := "Side Project", Points := ["Did a thing"] } (by decide),
   c5_project_spacing { Name := "Project 1 Name", Points := ["x"] } (by decide)⟩

theorem isOkE_reqStr (kvs : List (String × Yaml)) (k : String) :
    isOkE (reqStr kvs k) = strFieldOK kvs k := by
  simp only [reqStr, strFieldOK]
  cases h : lookupKey kvs k with
  | none => rfl
  | some v => cases v <;> rfl

theorem isOkE_strItem (y : Yaml) : isOkE (strItem y) = strItemOK y := by
  cases y <;> rfl

theorem isOkE_reqListOf (kvs : List (String × Yaml)) (k : String)
    (f : Yaml → Except String α) (g : Yaml → Bool)
    (hp : ∀ y, isOkE (f y) = g y) :
    isOkE (reqListOf kvs k f) = listFieldOK kvs k g := by
  simp only [reqListOf, listFieldOK]
  cases h : lookupKey kvs k with
  | none => rfl
  | some v =>
    cases v <;> try rfl
    case list xs =>
      rw [isOkE_mapE]
      simp only [hp]

theorem isOkE_skillsclass_validate (y : Yaml) :
    isOkE (skillsclass.model_validate y) = skillEntryOK y := by
  cases y <;> try rfl
  case map kvs =>
    simp only [skillsclass.model_validate, skillEntryOK]
    rw [← isOkE_reqStr kvs "category", ← isOkE_reqStr kvs "skill"]
    cases h1 : reqStr kvs "category" <;> cases h2 : reqStr kvs "skill" <;>
      simp [isOkE, Bind.bind, Except.bind, pure, Except.pure]

theorem isOkE_workclass_validate (y : Yaml) :
    isOkE (workclass.model_validate y) = workEntryOK y := by
  cases y <;> try rfl
  case map kvs =>
    simp only [workclass.model_validate, workEntryOK]
    rw [← isOkE_reqStr kvs "Title", ← isOkE_reqStr kvs "Company", ← isOkE_reqStr kvs "Date",
        ← isOkE_reqListOf kvs "Points" strItem strItemOK isOkE_strItem]
    cases h1 : reqStr kvs "Title" <;> cases h2 : reqStr kvs "Company" <;>
      cases h3 : reqStr kvs "Date" <;> cases h4 : reqListOf kvs "Points" strItem <;>
      simp [isOkE, Bind.bind, Except.bind, pure, Except.pure]

theorem isOkE_projectclass_validate (y : Yaml) :
    isOkE (projectclass.model_validate y) = projectEntryOK y := by
  cases y <;> try rfl
  case map kvs =>
    simp only [projectclass.model_validate, projectEntryOK]
    rw [← isOkE_reqStr kvs "Name",
        ← isOkE_reqListOf kvs "Points" strItem strItemOK isOkE_strItem]
    cases h1 : reqStr kvs "Name" <;> cases h2 : reqListOf kvs "Points" strItem <;>
      simp [isOkE, Bind.bind, Except.bind, pure, Except.pure]

theorem isOkE_certificateclass_validate (y : Yaml) :
    isOkE (certificateclass.model_validate y) = certificateEntryOK y := by
  cases y <;> try rfl
  case map kvs =>
    simp only [certificateclass.model_validate, certificateEntryOK]
    rw [← isOkE_reqStr kvs "Name", ← isOkE_reqStr kvs "Issuer"]
    cases h1 : reqStr kvs "Name" <;> cases h2 : reqStr kvs "Issuer" <;>
      simp [isOkE, Bind.bind, Except.bind, pure, Except.pure]

theorem isOkE_credentialclass_validate (y : Yaml) :
    isOkE (credentialclass.model_validate y) = credentialEntryOK y := by
  cases y <;> try rfl
  case map kvs =>
    simp only [credentialclass.model_validate, credentialEntryOK]
    rw [← isOkE_reqStr kvs "Name",
        ← isOkE_reqListOf kvs "Points" strItem strItemOK isOkE_strItem]
    cases h1 : reqStr kvs "Name" <;> cases h2 : reqListOf kvs "Points" strItem <;>
      simp [isOkE, Bind.bind, Except.bind, pure, Except.pure]

theorem isOkE_educationclass_validate (y : Yaml) :
    isOkE (educationclass.model_validate y) = educationEntryOK y := by
  cases y <;> try rfl
  case map kvs =>
    simp only [educationclass.model_validate, educationEntryOK]
    rw [← isOkE_reqStr kvs "Name",
        ← isOkE_reqListOf kvs "Credential" credentialclass.model_validate credentialEntryOK
          isOkE_credentialclass_validate]
    cases h1 : reqStr kvs "Name" <;>
      cases h2 : reqListOf kvs "Credential" credentialclass.model_validate <;>
      simp [isOkE, Bind.bind, Except.bind, pure, Except.pure]

/-- Claim C3: resume validation is all-or-nothing — for every input
value, `Resume.model_validate` succeeds (yielding a fully populated
Resume; the Except result carries no partial resume on failure) exactly
when the input is a mapping in which all six fields are present and
type-correct and every skills/education/certificates/work/projects entry
carries its required sub-fields; otherwise it fails as a whole with the
first offending field's error, fields being checked in declaration
order. -/
theorem c3_validation_all_or_nothing (y : Yaml) :
    isOkE (Resume.model_validate y) = resumeShapeOK y := by
  cases y <;> try rfl
  case map kvs =>
    simp only [Resume.model_validate, resumeShapeOK]
    rw [← isOkE_reqStr kvs "summary",
        ← isOkE_reqListOf kvs "skills" skillsclass.model_validate skillEntryOK
          isOkE_skillsclass_validate,
        ← isOkE_reqListOf kvs "education" educationclass.model_validate educationEntryOK
          isOkE_educationclass_validate,
        ← isOkE_reqListOf kvs "certificates" certificateclass.model_validate certificateEntryOK
          isOkE_certificateclass_validate,
        ← isOkE_reqListOf kvs "work" workclass.model_validate workEntryOK
          isOkE_workclass_validate,
        ← isOkE_reqListOf kvs "projects" projectclass.model_validate projectEntryOK
          isOkE_projectclass_validate]
    cases h1 : reqStr kvs "summary" <;>
      cases h2 : reqListOf kvs "skills" skillsclass.model_validate <;>
      cases h3 : reqListOf kvs "education" educationclass.model_validate <;>
      cases h4 : reqListOf kvs "certificates" certificateclass.model_validate <;>
      cases h5 : reqListOf kvs "work" workclass.model_validate <;>
      cases h6 : reqListOf kvs "projects" projectclass.model_validate <;>
      simp [isOkE, Bind.bind, Except.bind, pure, Except.pure]

/-- Claim C7: ContactInfo validation accepts any name string without a
format check, and succeeds exactly when the email is email-shaped and the
github and linkedin values are URL-shaped; the spec's four concrete
examples behave as stated. -/
theorem c7_contact_validation :
    (∀ name email github linkedin : String,
      isOkE (ContactInfo.validate name email github linkedin) =
        (isValidEmail email && isValidHttpUrl github && isValidHttpUrl linkedin)) ∧
    isValidEmail "a@b.com" = true ∧
    isValidEmail "not-an-email" = false ∧
    isValidHttpUrl "https://example.com" = true ∧
    isValidHttpUrl "not a url" = false := by
  refine ⟨?_, by decide, by decide, by decide, by decide⟩
  intro name email github linkedin
  simp only [ContactInfo.validate]
  cases he : isValidEmail email <;> cases hg : isValidHttpUrl github <;>
    cases hl : isValidHttpUrl linkedin <;> simp [isOkE]

/-- The fixed-offset slice text[7:-4] removes exactly the first 7
characters and then the last 4 of what remains, for replies of every
length. -/
theorem pySliceText_eq_dropFirst7Last4 (s : String) :
    pySliceText s = dropFirst7Last4 s := by
  simp only [pySliceText, dropFirst7Last4]
  rw [List.drop_take]
  rw [List.length_drop]
  congr 2

/-- Counterexample for C6: the claim says the generator raises a
ValueError carrying the underlying parse failure, but the legacy
src/prompt_generator.py variant raises ValueError(print(e)) — print
returns None, so the raised error's payload is None, not the parse
failure it just printed. -/
theorem c6_legacy_error_payload_counterexample :
    parseFailStub (pySliceText "```yaml\nkey: value\n```") =
      .error "mapping values are not allowed here" ∧
    legacyGenerateYaml (.ok "```yaml\nkey: value\n```") parseFailStub =
      .error (.valueError none) ∧
    PyError.valueError none ≠
      PyError.valueError (some "mapping values are not allowed here") :=
  ⟨rfl, rfl, by decide⟩

/-- Claim C6 as amended: both generator variants remove exactly the
first 7 and the last 4 characters of the raw reply (a fixed-offset
slice, with no check that the removed characters are fence markers) and
parse the remainder as YAML; when the remainder is not well-formed YAML
the packaged resume_builder generator raises ValueError carrying the
underlying parse failure, while the legacy top-level module prints the
failure and raises ValueError carrying None. -/
theorem c6_generator_slice_and_errors :
    (∀ raw : String, pySliceText raw = dropFirst7Last4 raw) ∧
    (∀ (parse : String → Except String Yaml) (raw e : String),
      parse (pySliceText raw) = .error e →
        generate_yaml_from_prompt (.ok raw) parse = .error (.valueError (some e)) ∧
        legacyGenerateYaml (.ok raw) parse = .error (.valueError none)) ∧
    (∀ (parse : String → Except String Yaml) (raw : String) (y : Yaml),
      parse (pySliceText raw) = .ok y →
        generate_yaml_from_prompt (.ok raw) parse = .ok y) := by
  refine ⟨pySliceText_eq_dropFirst7Last4, ?_, ?_⟩
  · intro parse raw e h
    constructor <;> simp [generate_yaml_from_prompt, legacyGenerateYaml, h]
  · intro parse raw y h
    simp [generate_yaml_from_prompt, h]

/-- Witness for C6: both variants evaluated on a concrete fenced reply
whose payload fails to parse. -/
theorem c6_generator_slice_and_errors_witness :
    generate_yaml_from_prompt (.ok "```yaml\na: 1\n```") parseFailStub =
      .error (.valueError (some "mapping values are not allowed here")) ∧
    legacyGenerateYaml (.ok "```yaml\na: 1\n```") parseFailStub =
      .error (.valueError none) :=
  c6_generator_slice_and_errors.2.1 parseFailStub "```yaml\na: 1\n```"
    "mapping values are not allowed here" rfl

/-- Claim C8, at the failing input: the header phase of cli.main sets the
margins to 0.5in/0.5in/0.437in/0.287in exactly once, centers the name
line with 0pt space after and centers the contact line built as
email plus " | LinkedIn | GitHub" — but both lines are rendered at the
default 12pt, not 18pt and 14pt, because paragraph_formatting applies
TextStyle() instead of its style argument (contradicting its own
docstring); the Name and Links styles the cli passes are indeed 18pt and
14pt. -/
theorem c8_header_styles_defect :
    buildHeader "AMISH GOEL" "a@b.com" = .ok
      { margins := { left := 500, right := 500, top := 437, bottom := 287 },
        body := [
          { runs := [{ text := "AMISH GOEL", bold := some false,
                       fontName := some "Times New Roman", fontSize := some 12 }],
            style := .normal, spaceBefore := none, spaceAfter := some 0,
            alignment := some .center },
          { runs := [{ text := "a@b.com | LinkedIn | GitHub", bold := some false,
                       fontName := some "Times New Roman", fontSize := some 12 }],
            style := .normal, spaceBefore := none, spaceAfter := none,
            alignment := some .center }] } ∧
    (formattingstyles "Name").font_size = 18 ∧
    (formattingstyles "Links").font_size = 14 ∧
    (12 : Nat) ≠ 18 ∧ (12 : Nat) ≠ 14 :=
  ⟨rfl, rfl, rfl, by decide, by decide⟩

/-- Claim C10: when the hosted-model call raises an API status error or
an API connection error, generate_yaml_from_prompt catches it, prints a
diagnostic (printing is not modelled) and falls off the end of the
function, returning None rather than propagating any exception — the
caller receives None. -/
theorem c10_api_errors_return_none :
    ∀ (parse : String → Except String Yaml) (code : Nat) (msg : String),
      generate_yaml_from_prompt (.statusError code msg) parse = .ok .null ∧
      generate_yaml_from_prompt .connectionError parse = .ok .null :=
  fun _ _ _ => ⟨rfl, rfl⟩
